import Mathlib

/-!
Verification development for a layered user-account management backend
(domain / application / infrastructure).  The definitions below are a shallow
embedding of the Python source: strings are lists of characters, raised
exceptions are `Except` errors, the Django ORM storage is an explicit list of
records threaded through the repository functions, and the event publisher is
an explicit state value.  Parts of the system that live outside the core
source tree (the Django user model and the authentication collaborator) are
modelled from the specification and marked as such in their doc comments.
-/

/-- Python strings are modelled as lists of characters. -/
abbrev PyStr := List Char

/-- Lower-casing a string, as Python `str.lower` does for ASCII data. -/
def lowerStr (s : PyStr) : PyStr := s.map Char.toLower

/-- Characters removed by Python `str.strip()`. -/
def isPySpace (c : Char) : Bool :=
  c == ' ' || c == '\t' || c == '\n' || c == '\r' || c == '\x0b' || c == '\x0c'

/-- Python `str.strip()`: drop whitespace from both ends. -/
def stripStr (s : PyStr) : PyStr :=
  ((s.dropWhile isPySpace).reverse.dropWhile isPySpace).reverse

/-- Predicate `startsWithL pat s`: true when `pat` is an initial segment of `s`. -/
def startsWithL : PyStr → PyStr → Bool
  | [], _ => true
  | _ :: _, [] => false
  | a :: as, b :: bs => a == b && startsWithL as bs

/-- Predicate `hasSub pat s`, Python `pat in s`: some position of `s` starts with `pat`. -/
def hasSub (pat : PyStr) : PyStr → Bool
  | [] => startsWithL pat []
  | c :: rest => startsWithL pat (c :: rest) || hasSub pat rest

/-- Character class `[a-zA-Z0-9_]` of the username pattern. -/
def isWordChar (c : Char) : Bool := c.isAlphanum || c == '_'

/-- Character class `[a-zA-Z0-9._%+-]` of the email local part. -/
def isLocalChar (c : Char) : Bool :=
  c.isAlphanum || c == '.' || c == '_' || c == '%' || c == '+' || c == '-'

/-- Character class `[a-zA-Z0-9.-]` of the email domain part. -/
def isDomainChar (c : Char) : Bool := c.isAlphanum || c == '.' || c == '-'

/-- Tail of the username pattern after an initial word character: word
characters and single spaces, each space followed by a word character. -/
def usernameTail : PyStr → Bool
  | [] => true
  | [' '] => false
  | ' ' :: c :: rest => isWordChar c && usernameTail rest
  | c :: rest => isWordChar c && usernameTail rest

/-- Matcher for the anchored pattern of alphanumeric/underscore tokens
separated by single spaces, used for usernames in `entities.py` and
`value_objects.py`. -/
def usernameCore : PyStr → Bool
  | [] => false
  | c :: rest => isWordChar c && usernameTail rest

/-- Python `re.match` of an anchored pattern: the end anchor also matches just
before one trailing newline. -/
def pyFullMatchNl (core : PyStr → Bool) (s : PyStr) : Bool :=
  core s || (s.getLast? == some '\n' && core s.dropLast)

/-- Whether the username regular expression of the source matches. -/
def usernameMatch (s : PyStr) : Bool := pyFullMatchNl usernameCore s

/-- Domain part of the email pattern: a nonempty run of domain characters, a
dot, then at least two letters reaching the end. The all-letter tail contains
no dot, so the split dot is necessarily the last dot of the domain. -/
def emailDomainCore (d : PyStr) : Bool :=
  d.all isDomainChar &&
    (let tld := d.reverse.takeWhile Char.isAlpha
     decide (2 ≤ tld.length) &&
       (match d.reverse.drop tld.length with
        | '.' :: rest => !rest.isEmpty
        | _ => false))

/-- Core of the email pattern of `value_objects.py`: local part, at sign,
domain part. The at sign is excluded from both character classes, so the
pattern can only split at the first at sign of the string. -/
def emailCore (s : PyStr) : Bool :=
  match s.dropWhile (fun c => c != '@') with
  | '@' :: d =>
    let l := s.takeWhile (fun c => c != '@')
    !l.isEmpty && l.all isLocalChar && emailDomainCore d
  | _ => false

/-- Whether the email regular expression of the source matches. -/
def emailMatch (s : PyStr) : Bool := pyFullMatchNl emailCore s

/-- Raw Python exceptions that can escape the embedded code. -/
inductive PyErr where
  | valueError (msg : PyStr)
  | attributeError (msg : PyStr)
  | doesNotExist
  | drfValidationError (msg : PyStr)
  deriving DecidableEq, Repr

/-- String-keyed detail mappings (`extra` / `details` dictionaries). -/
abbrev StrDict := List (PyStr × PyStr)

/-- Application-layer errors of `application/shared/exceptions.py`, each with a
message and an `extra` mapping. -/
inductive AppError where
  | validationError (message : PyStr) (extra : StrDict)
  | notFoundError (message : PyStr) (extra : StrDict)
  | unauthorizedError (message : PyStr) (extra : StrDict)
  | conflictError (message : PyStr) (extra : StrDict)
  deriving DecidableEq, Repr

/-- The domain exception raised by `UserDomainService.validate_user_creation`. -/
structure BusinessRuleViolationError where
  message : PyStr
  details : StrDict
  deriving DecidableEq, Repr

/-- Anything a use case can raise: a raw Python error, a domain exception or
an application error. -/
inductive Raised where
  | py (e : PyErr)
  | domain (e : BusinessRuleViolationError)
  | app (e : AppError)
  deriving DecidableEq, Repr

/-- The `Email` value object. -/
structure Email where
  value : PyStr
  deriving DecidableEq, Repr

/-- Construction of `Email` in `value_objects.py`: reject the empty string,
then match the regular expression against the raw input, then normalize by
lower-casing and stripping. Validation runs before normalization. -/
def mkEmail (value : PyStr) : Except PyErr Email :=
  if value.isEmpty then Except.error (PyErr.valueError ("Email cannot be empty".toList))
  else if !emailMatch value then Except.error (PyErr.valueError ("Invalid email format".toList))
  else Except.ok ⟨stripStr (lowerStr value)⟩

/-- The `Username` value object. -/
structure Username where
  value : PyStr
  deriving DecidableEq, Repr

/-- Construction of `Username` in `value_objects.py`. -/
def mkUsername (value : PyStr) : Except PyErr Username :=
  if value.isEmpty then Except.error (PyErr.valueError ("Username cannot be empty".toList))
  else if !usernameMatch value then Except.error (PyErr.valueError ("Invalid username format".toList))
  else Except.ok ⟨value⟩

example : emailMatch ("a@b.co".toList) = true := by decide
example : emailMatch ("A@B.CO".toList) = true := by decide
example : emailMatch (" a@b.co ".toList) = false := by decide
example : emailMatch ("invalid".toList) = false := by decide
example : usernameMatch ("john_doe 99".toList) = true := by decide
example : usernameMatch ("john  doe".toList) = false := by decide
example : usernameMatch ("".toList) = false := by decide

/-- The domain `User` entity of `domain/user/entities.py`, with the fields
inherited from `DomainEntity` (`id`, `created_at`, `updated_at`). Timestamps
are modelled as natural numbers. -/
structure User where
  id : Option Nat
  created_at : Nat
  updated_at : Nat
  username : PyStr
  email : PyStr
  first_name : Option PyStr
  last_name : Option PyStr
  is_active : Bool
  is_staff : Bool
  is_admin : Bool
  is_superuser : Bool
  password : Option PyStr
  deriving DecidableEq, Repr

/-- Construction of a `User`, running the entity validation of
`User.__post_init__` (which overrides the one of `DomainEntity`): the username
must be nonempty and match the username pattern, the email must be nonempty
and is normalized by lower-casing and stripping. No email shape check runs
here. -/
def mkUser (username email : PyStr) (first_name last_name : Option PyStr)
    (is_active is_staff is_admin is_superuser : Bool) (password : Option PyStr)
    (id : Option Nat) (created_at updated_at : Nat) : Except PyErr User :=
  if username.isEmpty then Except.error (PyErr.valueError ("Username is required".toList))
  else if email.isEmpty then Except.error (PyErr.valueError ("Email is required".toList))
  else if !usernameMatch username then
    Except.error (PyErr.valueError ("Invalid username format".toList))
  else
    Except.ok
      { id := id
        created_at := created_at
        updated_at := updated_at
        username := username
        email := stripStr (lowerStr email)
        first_name := first_name
        last_name := last_name
        is_active := is_active
        is_staff := is_staff
        is_admin := is_admin
        is_superuser := is_superuser
        password := password }

/-- Modelled from the spec: the stored credential shape of the credential
store/verifier collaborator (spec section 6). The Django user model
(`src/users/models.py`) is not part of the source tree; per the spec, storage
holds opaque credential material derived from a plaintext, and setting a
password from the absent value yields an unusable credential matching no
plaintext. -/
inductive Credential where
  | usable (material : PyStr)
  | unusable
  deriving DecidableEq, Repr

/-- Modelled from the spec: Django `set_password` on the stored model. It
replaces the stored credential with material derived solely from its
argument; an absent argument yields the unusable credential. -/
def set_password (p : Option PyStr) : Credential :=
  match p with
  | some pw => Credential.usable pw
  | none => Credential.unusable

/-- A stored row of the Django user table. Modelled from the spec for the
missing `src/users/models.py`: the fields the repository adapter reads and
writes, plus the stored credential. The spec mentions no phone number field,
so the model has none and the `hasattr` guards of the adapter are false. -/
structure DjangoUserRec where
  uid : Nat
  username : PyStr
  email : PyStr
  first_name : PyStr
  last_name : PyStr
  is_active : Bool
  is_staff : Bool
  is_admin : Bool
  is_superuser : Bool
  credential : Credential
  deriving DecidableEq, Repr

/-- The user table, threaded explicitly through the repository functions. -/
abbrev Storage := List DjangoUserRec

/-- Lookup `DjangoUser.objects.get(id=uid)` restricted to its found/not-found outcome. -/
def getRec (db : Storage) (uid : Nat) : Option DjangoUserRec :=
  db.find? (fun r => r.uid == uid)

/-- Adapter `DjangoUserRepository._to_domain`: build a domain `User` from a stored
row. The entity constructor runs its validation; the `password` field is not
populated, so it keeps its `None` default. `created_at`/`updated_at` are the
current time in this model. -/
def _to_domain (r : DjangoUserRec) (now : Nat) : Except PyErr User :=
  mkUser r.username r.email (some r.first_name) (some r.last_name)
    r.is_active r.is_staff r.is_admin r.is_superuser none (some r.uid) now now

/-- Adapter `DjangoUserRepository.get_by_id`: `None` when the row is absent, otherwise
the domain entity (whose construction may itself raise). -/
def get_by_id (db : Storage) (uid : Nat) (now : Nat) : Except PyErr (Option User) :=
  match getRec db uid with
  | none => Except.ok none
  | some r => (_to_domain r now).map some

/-- Adapter `DjangoUserRepository.get_by_username`: exact username lookup. -/
def get_by_username (db : Storage) (username : PyStr) (now : Nat) :
    Except PyErr (Option User) :=
  match db.find? (fun r => r.username == username) with
  | none => Except.ok none
  | some r => (_to_domain r now).map some

/-- Adapter `DjangoUserRepository.get_by_email`: the query value is lower-cased before
the lookup. -/
def get_by_email (db : Storage) (email : PyStr) (now : Nat) :
    Except PyErr (Option User) :=
  match db.find? (fun r => r.email == lowerStr email) with
  | none => Except.ok none
  | some r => (_to_domain r now).map some

/-- Python truthiness of an optional integer: `None` and `0` are falsy. -/
def truthyId : Option Nat → Bool
  | none => false
  | some n => n != 0

/-- Python `x or ""` for an optional string. -/
def pyOr (a : Option PyStr) : PyStr := a.getD []

/-- Identity assigned by storage on a fresh insert. -/
def freshId (db : Storage) : Nat := (db.foldl (fun m r => max m r.uid) 0) + 1

/-- Adapter `DjangoUserRepository.save`: convert the entity to a row (updating the
existing row when the entity id is truthy, else building a fresh row), then
unconditionally call `set_password` with the entity password — the `hasattr`
guard on `password` is always true for the dataclass — then store and convert
back with `_to_domain`. `full_clean` is modelled as a no-op, the spec naming
no save-side validation. -/
def save (db : Storage) (entity : User) (now : Nat) : Except PyErr (Storage × User) :=
  let cred := set_password entity.password
  if truthyId entity.id then
    match getRec db (entity.id.getD 0) with
    | none => Except.error PyErr.doesNotExist
    | some r =>
      let r2 : DjangoUserRec :=
        { r with
          username := entity.username
          email := entity.email
          first_name := pyOr entity.first_name
          last_name := pyOr entity.last_name
          is_active := entity.is_active
          is_staff := entity.is_staff
          is_admin := entity.is_admin
          is_superuser := entity.is_superuser
          credential := cred }
      let db2 := db.map (fun r0 => if r0.uid == r2.uid then r2 else r0)
      (_to_domain r2 now).map (fun u2 => (db2, u2))
  else
    let r2 : DjangoUserRec :=
      { uid := freshId db
        username := entity.username
        email := entity.email
        first_name := pyOr entity.first_name
        last_name := pyOr entity.last_name
        is_active := entity.is_active
        is_staff := entity.is_staff
        is_admin := entity.is_admin
        is_superuser := entity.is_superuser
        credential := cred }
    (_to_domain r2 now).map (fun u2 => (db ++ [r2], u2))

/-- Service rule `UserDomainService.is_username_unique`: a username is unique when no user
has it, or the only match carries the excluded id (the excluded id is subject
to Python truthiness). -/
def is_username_unique (db : Storage) (username : PyStr) (exclude_user_id : Option Nat)
    (now : Nat) : Except PyErr Bool :=
  (get_by_username db username now).map (fun existing =>
    match existing with
    | none => true
    | some u => truthyId exclude_user_id && u.id == exclude_user_id)

/-- Service rule `UserDomainService.is_email_unique`: symmetric rule over the email lookup. -/
def is_email_unique (db : Storage) (email : PyStr) (exclude_user_id : Option Nat)
    (now : Nat) : Except PyErr Bool :=
  (get_by_email db email now).map (fun existing =>
    match existing with
    | none => true
    | some u => truthyId exclude_user_id && u.id == exclude_user_id)

/-- Service rule `UserDomainService.validate_user_creation`: construct the two value
objects, wrapping a `ValueError` into a `BusinessRuleViolationError` with a
field-naming prefix, then check both uniqueness predicates, raising the
"already taken" message on failure. -/
def validate_user_creation (db : Storage) (username email : PyStr) (now : Nat) :
    Except Raised Unit :=
  match mkUsername username with
  | Except.error (PyErr.valueError m) =>
    Except.error (Raised.domain ⟨("Invalid username: ".toList) ++ m, []⟩)
  | Except.error e => Except.error (Raised.py e)
  | Except.ok _ =>
    match mkEmail email with
    | Except.error (PyErr.valueError m) =>
      Except.error (Raised.domain ⟨("Invalid email: ".toList) ++ m, []⟩)
    | Except.error e => Except.error (Raised.py e)
    | Except.ok _ =>
      match is_username_unique db username none now with
      | Except.error e => Except.error (Raised.py e)
      | Except.ok uu =>
        if !uu then
          Except.error (Raised.domain
            ⟨("Username '".toList) ++ username ++ ("' is already taken".toList), []⟩)
        else
          match is_email_unique db email none now with
          | Except.error e => Except.error (Raised.py e)
          | Except.ok eu =>
            if !eu then
              Except.error (Raised.domain
                ⟨("Email '".toList) ++ email ++ ("' is already taken".toList), []⟩)
            else Except.ok ()

/-- Result DTO for a user, as built by the `_to_dto` helpers of the use cases. -/
structure UserDTO where
  id : Option Nat
  username : PyStr
  email : PyStr
  first_name : Option PyStr
  last_name : Option PyStr
  is_active : Bool
  is_staff : Bool
  is_admin : Bool
  is_superuser : Bool
  deriving DecidableEq, Repr

/-- The `_to_dto` conversion shared by the user use cases. -/
def _to_dto (u : User) : UserDTO :=
  { id := u.id
    username := u.username
    email := u.email
    first_name := u.first_name
    last_name := u.last_name
    is_active := u.is_active
    is_staff := u.is_staff
    is_admin := u.is_admin
    is_superuser := u.is_superuser }

/-- Input DTO of `CreateUserUseCase`. -/
structure UserCreateDTO where
  username : PyStr
  email : PyStr
  password : PyStr
  first_name : Option PyStr
  last_name : Option PyStr
  deriving DecidableEq, Repr

/-- Input DTO of `UpdateUserUseCase`, exactly the fields declared in
`application/shared/dtos.py`: `first_name`, `last_name`, `email`. There is no
`phone_number` field. -/
structure UserUpdateDTO where
  first_name : Option PyStr
  last_name : Option PyStr
  email : Option PyStr
  deriving DecidableEq, Repr

/-- The concrete domain events of `domain/user/events.py`. The generated
`event_id` and `occurred_at` values carry no information relevant here and
are omitted. -/
inductive DomainEvent where
  | userCreated (aggregate_id : Option Nat) (username : PyStr) (email : PyStr)
  | userUpdated (aggregate_id : Option Nat) (user_id : Option Nat) (updated_fields : List PyStr)
  | userActivated (aggregate_id : Option Nat) (user_id : Option Nat)
  | userDeactivated (aggregate_id : Option Nat) (user_id : Option Nat)
  | passwordChanged (aggregate_id : Option Nat) (user_id : Option Nat)
  deriving DecidableEq, Repr

/-- Decimal rendering of a natural number, for the interpolated messages. -/
def natToStr (n : Nat) : PyStr := (toString n).toList

/-- Use case `CreateUserUseCase.execute`, with the composition-root wiring (an event
publisher is present). Returns the updated storage, the events published
during the call, and the result DTO; an error means the exception propagated
and nothing was published. -/
def CreateUserUseCase_execute (db : Storage) (user_data : UserCreateDTO) (now : Nat) :
    Except Raised (Storage × List DomainEvent × UserDTO) :=
  match validate_user_creation db user_data.username user_data.email now with
  | Except.error (Raised.domain e) =>
    if hasSub ("already taken".toList) e.message then
      Except.error (Raised.app (AppError.conflictError e.message
        [(("field".toList),
          if hasSub ("Username".toList) e.message then ("username".toList)
          else ("email".toList))]))
    else
      Except.error (Raised.app (AppError.validationError e.message e.details))
  | Except.error e => Except.error e
  | Except.ok _ =>
    match mkUser user_data.username user_data.email user_data.first_name
        user_data.last_name true false false false (some user_data.password)
        none now now with
    | Except.error e => Except.error (Raised.py e)
    | Except.ok user =>
      match save db user now with
      | Except.error e => Except.error (Raised.py e)
      | Except.ok (db2, saved) =>
        let ev := DomainEvent.userCreated saved.id saved.username saved.email
        Except.ok (db2, [ev], _to_dto saved)

/-- Field application block of `UpdateUserUseCase.execute` (the four `if`
statements): apply each supplied field to the entity — the email lower-cased
and stripped — and append its name to `updated_fields` whenever the field was
supplied, whether or not the value differs from the current one. The fourth
block, for `phone_number`, is never reached (see the use case below). -/
def applyUserUpdate (user : User) (user_data : UserUpdateDTO) : User × List PyStr :=
  let step1 : User × List PyStr :=
    match user_data.first_name with
    | some v => ({ user with first_name := some v }, [("first_name".toList)])
    | none => (user, [])
  let step2 : User × List PyStr :=
    match user_data.last_name with
    | some v => ({ step1.1 with last_name := some v }, step1.2 ++ [("last_name".toList)])
    | none => step1
  match user_data.email with
  | some v => ({ step2.1 with email := stripStr (lowerStr v) }, step2.2 ++ [("email".toList)])
  | none => step2

/-- Use case `UpdateUserUseCase.execute`: load the user (absent id raises a not-found
error), re-check email uniqueness when a truthy, different email is supplied,
apply the supplied fields, and then read `user_data.phone_number` — an
attribute `UserUpdateDTO` does not define, so every execution that reaches
the field block raises an `AttributeError` before saving or publishing. The
unreachable remainder of the source (save, publish of `user_updated`, DTO
return) is therefore not part of any reachable behavior. -/
def UpdateUserUseCase_execute (db : Storage) (user_id : Nat) (user_data : UserUpdateDTO)
    (now : Nat) : Except Raised (Storage × List DomainEvent × UserDTO) :=
  match get_by_id db user_id now with
  | Except.error e => Except.error (Raised.py e)
  | Except.ok none =>
    Except.error (Raised.app (AppError.notFoundError
      (("User with ID ".toList) ++ natToStr user_id ++ (" not found".toList)) []))
  | Except.ok (some user) =>
    let emailStep : Except Raised Unit :=
      match user_data.email with
      | some s =>
        if !s.isEmpty && s != user.email then
          match is_email_unique db s (some user_id) now with
          | Except.error e => Except.error (Raised.py e)
          | Except.ok ok =>
            if !ok then
              Except.error (Raised.app (AppError.conflictError
                (("Email '".toList) ++ s ++ ("' is already taken".toList))
                [(("field".toList), ("email".toList))]))
            else Except.ok ()
        else Except.ok ()
      | none => Except.ok ()
    match emailStep with
    | Except.error e => Except.error e
    | Except.ok _ =>
      let _mutated := applyUserUpdate user user_data
      Except.error (Raised.py (PyErr.attributeError
        ("UserUpdateDTO object has no attribute phone_number".toList)))

/-- Use case `ChangePasswordUseCase.execute`: load the user (absent id raises a
not-found error), then call `user.check_password(old_password)` — a method
the domain `User` entity does not define, so every execution with a found
user raises an `AttributeError`; the remainder of the source (the raise of
the rest-framework validation error on a wrong old password, the new-password
policy validation, save, publish of `password_changed`) is unreachable. -/
def ChangePasswordUseCase_execute (db : Storage) (user_id : Nat)
    (old_password new_password : PyStr) (now : Nat) :
    Except Raised (Storage × List DomainEvent) :=
  match get_by_id db user_id now with
  | Except.error e => Except.error (Raised.py e)
  | Except.ok none =>
    Except.error (Raised.app (AppError.notFoundError
      (("User with ID ".toList) ++ natToStr user_id ++ (" not found".toList)) []))
  | Except.ok (some _user) =>
    Except.error (Raised.py (PyErr.attributeError
      ("User object has no attribute check_password".toList)))

/-- Service rule `AuthenticationDomainService.can_user_authenticate`. -/
def can_user_authenticate (u : User) : Bool := u.is_active

/-- Result DTO of the authentication use cases. -/
structure AuthenticationResultDTO where
  user : UserDTO
  access_token : Option PyStr
  refresh_token : Option PyStr
  session_key : Option PyStr
  deriving DecidableEq, Repr

/-- Use case `AuthenticateUserUseCase.execute`. The Django `authenticate` collaborator
is modelled from the spec (section 6, credential store/verifier) as a
parameter `authFn` mapping the supplied username and password to the id of
the verified stored user, or to the absent value when verification fails.
Every failing step yields a normal `none` result. -/
def AuthenticateUserUseCase_execute (db : Storage)
    (authFn : PyStr → PyStr → Option Nat) (username password : PyStr) (now : Nat) :
    Except Raised (Option AuthenticationResultDTO) :=
  match authFn username password with
  | none => Except.ok none
  | some uid =>
    match get_by_id db uid now with
    | Except.error e => Except.error (Raised.py e)
    | Except.ok none => Except.ok none
    | Except.ok (some user) =>
      if !can_user_authenticate user then Except.ok none
      else
        Except.ok (some
          { user := _to_dto user
            access_token := none
            refresh_token := none
            session_key := none })

/-- Handlers are identified by numbers; their behavior (normal return or a
raised exception with a message) is supplied to `publish` as an oracle. -/
abbrev HandlerId := Nat

/-- The concrete event classes, used as subscription keys. -/
inductive EvTag where
  | tagUserCreated
  | tagUserUpdated
  | tagUserActivated
  | tagUserDeactivated
  | tagPasswordChanged
  deriving DecidableEq, Repr

/-- Python `type(event)`: the concrete class of an event. -/
def evTag : DomainEvent → EvTag
  | DomainEvent.userCreated _ _ _ => EvTag.tagUserCreated
  | DomainEvent.userUpdated _ _ _ => EvTag.tagUserUpdated
  | DomainEvent.userActivated _ _ => EvTag.tagUserActivated
  | DomainEvent.userDeactivated _ _ => EvTag.tagUserDeactivated
  | DomainEvent.passwordChanged _ _ => EvTag.tagPasswordChanged

/-- State of `InMemoryEventPublisher`: the event history, the per-type
subscriber lists (a total map, an absent dictionary key being the empty
list), and the type-agnostic subscriber list. -/
structure InMemoryEventPublisher where
  _events : List DomainEvent
  _subscribers_by_type : EvTag → List HandlerId
  _all_subscribers : List HandlerId

/-- A fresh publisher: empty history, no subscribers. -/
def emptyPublisher : InMemoryEventPublisher :=
  { _events := []
    _subscribers_by_type := fun _ => []
    _all_subscribers := [] }

/-- Method `InMemoryEventPublisher.subscribe`: append the handler to the list of its
event type, or to the type-agnostic list when no type is given. -/
def subscribe (b : InMemoryEventPublisher) (handler : HandlerId)
    (event_type : Option EvTag) : InMemoryEventPublisher :=
  match event_type with
  | some t =>
    { b with _subscribers_by_type := fun t2 =>
        if t2 == t then b._subscribers_by_type t2 ++ [handler]
        else b._subscribers_by_type t2 }
  | none => { b with _all_subscribers := b._all_subscribers ++ [handler] }

/-- Method `InMemoryEventPublisher._notify_subscriber`: call the handler; an
exception is caught and logged (recorded here as the boolean of the call
record) and never propagates — the call always returns normally. -/
def _notify_subscriber (behavior : HandlerId → DomainEvent → Except PyStr Unit)
    (subscriber : HandlerId) (event : DomainEvent) : HandlerId × Bool :=
  match behavior subscriber event with
  | Except.ok _ => (subscriber, false)
  | Except.error _ => (subscriber, true)

/-- Method `InMemoryEventPublisher.publish`: append the event to the history, then
notify every subscriber of the event's concrete type, then every
type-agnostic subscriber, each through `_notify_subscriber`. The returned
list is the sequence of handler calls in execution order, with the flag
telling whether that handler raised. -/
def publish (b : InMemoryEventPublisher)
    (behavior : HandlerId → DomainEvent → Except PyStr Unit) (event : DomainEvent) :
    InMemoryEventPublisher × List (HandlerId × Bool) :=
  let typedCalls := (b._subscribers_by_type (evTag event)).map
    (fun s => _notify_subscriber behavior s event)
  let allCalls := b._all_subscribers.map (fun s => _notify_subscriber behavior s event)
  ({ b with _events := b._events ++ [event] }, typedCalls ++ allCalls)

/-- Equality as written in the body of `DomainEntity.__eq__`: same concrete
class and equal `id`. For the `User` dataclass this method is shadowed by a
generated one (see `User_dataclass_eq`). -/
def DomainEntity_eq_body (a b : User) : Bool := a.id == b.id

/-- The `__eq__` that `User` instances actually carry: the `dataclass`
decorator on `User` finds no `__eq__` in the class body of `User` itself and
therefore installs the generated one, which compares the full field tuple
(inherited dataclass fields included) between instances of the same concrete
class. -/
def User_dataclass_eq (a b : User) : Bool :=
  a.id == b.id && a.created_at == b.created_at && a.updated_at == b.updated_at &&
    a.username == b.username && a.email == b.email && a.first_name == b.first_name &&
    a.last_name == b.last_name && a.is_active == b.is_active && a.is_staff == b.is_staff &&
    a.is_admin == b.is_admin && a.is_superuser == b.is_superuser && a.password == b.password

/-- The `__hash__` attribute that `User` instances actually carry: with
`eq = True` and `frozen = False` and no `__hash__` in the class body of
`User`, the `dataclass` decorator sets `__hash__` to `None`, making `User`
instances unhashable. -/
def User_hash_attr : Option (User → Nat) := none

/-- Whether an `Except` value is a success. -/
def exceptIsOk {ε α : Type} : Except ε α → Bool
  | Except.ok _ => true
  | Except.error _ => false

/-- A username accepted by the pattern is nonempty. -/
theorem usernameMatch_ne_empty {s : PyStr} (h : usernameMatch s = true) :
    s.isEmpty = false := by
  cases s with
  | nil => exact absurd h (by decide)
  | cons a l => rfl

/-- An email accepted by the pattern is nonempty. -/
theorem emailMatch_ne_empty {s : PyStr} (h : emailMatch s = true) :
    s.isEmpty = false := by
  cases s with
  | nil => exact absurd h (by decide)
  | cons a l => rfl

/-- Extending the scanned string on the right preserves `startsWithL`. -/
theorem startsWithL_append {pat : PyStr} :
    ∀ {s : PyStr} (t : PyStr), startsWithL pat s = true → startsWithL pat (s ++ t) = true := by
  induction pat with
  | nil => intro s t _; rfl
  | cons a as ih =>
    intro s t h
    cases s with
    | nil => exact absurd h (by simp [startsWithL])
    | cons b bs =>
      simp only [startsWithL, Bool.and_eq_true] at h
      simpa [startsWithL, h.1] using ih t h.2

/-- A pattern matching at the front occurs as a substring. -/
theorem hasSub_of_startsWith {pat s : PyStr} (h : startsWithL pat s = true) :
    hasSub pat s = true := by
  cases s with
  | nil => simpa [hasSub] using h
  | cons c rest => simp [hasSub, h]

/-- The empty pattern occurs in every string. -/
theorem hasSub_nil (s : PyStr) : hasSub [] s = true := by
  cases s with
  | nil => rfl
  | cons c rest => simp [hasSub, startsWithL]

/-- Substring occurrence is preserved by prepending text. -/
theorem hasSub_append_left {pat s : PyStr} (x : PyStr) (h : hasSub pat s = true) :
    hasSub pat (x ++ s) = true := by
  induction x with
  | nil => simpa using h
  | cons c x ih => simp [hasSub, ih]

/-- Substring occurrence is preserved by appending text. -/
theorem hasSub_append_right {pat : PyStr} :
    ∀ {s : PyStr} (y : PyStr), hasSub pat s = true → hasSub pat (s ++ y) = true := by
  intro s
  induction s with
  | nil =>
    intro y h
    cases pat with
    | nil => exact hasSub_nil y
    | cons a as => exact absurd h (by simp [hasSub, startsWithL])
  | cons c rest ih =>
    intro y h
    simp only [hasSub, Bool.or_eq_true] at h
    rcases h with h | h
    · exact hasSub_of_startsWith (by simpa using startsWithL_append y h)
    · simp [hasSub, ih y h]

/-- The message raised for a taken email in `validate_user_creation`. -/
def emailTakenMsg (email : PyStr) : PyStr :=
  ("Email '".toList) ++ email ++ ("' is already taken".toList)

/-- The message raised for a taken username in `validate_user_creation`. -/
def usernameTakenMsg (username : PyStr) : PyStr :=
  ("Username '".toList) ++ username ++ ("' is already taken".toList)

/-- The field tag `CreateUserUseCase.execute` derives from a conflict
message: `username` when the message contains the text `Username`, else
`email`. -/
def conflictTagOf (message : PyStr) : PyStr :=
  if hasSub ("Username".toList) message then ("username".toList) else ("email".toList)

/-- A stored row convertible by `_to_domain` without an exception. -/
def wfRec (r : DjangoUserRec) : Bool := !r.email.isEmpty && usernameMatch r.username

/-- A storage state all of whose rows convert cleanly. -/
def wfStorage (db : Storage) : Bool := db.all wfRec

/-- Explicit value of `_to_domain` on a well-formed row. -/
theorem _to_domain_wf (r : DjangoUserRec) (now : Nat) (h : wfRec r = true) :
    _to_domain r now = Except.ok
      { id := some r.uid
        created_at := now
        updated_at := now
        username := r.username
        email := stripStr (lowerStr r.email)
        first_name := some r.first_name
        last_name := some r.last_name
        is_active := r.is_active
        is_staff := r.is_staff
        is_admin := r.is_admin
        is_superuser := r.is_superuser
        password := none } := by
  simp only [wfRec, Bool.and_eq_true, Bool.not_eq_true'] at h
  have hne : r.username.isEmpty = false := usernameMatch_ne_empty h.2
  simp [_to_domain, mkUser, hne, h.1, h.2]

/-- A sample stored user with a usable credential, used as the failing input
of several claims. -/
def rec1 : DjangoUserRec :=
  { uid := 1
    username := ("alice".toList)
    email := ("alice@example.com".toList)
    first_name := []
    last_name := []
    is_active := true
    is_staff := false
    is_admin := false
    is_superuser := false
    credential := Credential.usable ("alicepw".toList) }

/-- Storage holding only `rec1`. -/
def db1 : Storage := [rec1]

/-- Claim C1: the code of `ChangePasswordUseCase.execute`, run for a persisted
user with the correct old password and a policy-valid new password, does not
persist new password material or publish a `password_changed` event: it
raises an `AttributeError`, because the domain `User` entity defines no
`check_password` method. An error result carries no storage update and no
published event. -/
theorem c1_change_password_raises_attribute_error :
    ChangePasswordUseCase_execute db1 1 ("alicepw".toList) ("newsecret9".toList) 0 =
      Except.error (Raised.py (PyErr.attributeError
        ("User object has no attribute check_password".toList))) := by
  rfl

/-- Claim C6: the code of `ChangePasswordUseCase.execute`, run for a persisted
user with an incorrect old password, does not fail with the application-layer
validation error: it raises a raw `AttributeError` (the domain `User` entity
defines no `check_password`), and even the raise the source intends for this
branch is the rest-framework validation error, not the application
`ValidationError` its docstring declares. No `password_changed` event is
published (an error result carries none). -/
theorem c6_change_password_wrong_old_raises_attribute_error :
    ChangePasswordUseCase_execute db1 1 ("totally-wrong".toList) ("newsecret9".toList) 0 =
      Except.error (Raised.py (PyErr.attributeError
        ("User object has no attribute check_password".toList))) := by
  rfl

/-- Claim C3: the code of `UpdateUserUseCase.execute`, run for an existing
user with only `first_name` supplied, does not persist or publish
`user_updated`: it raises an `AttributeError` reading `phone_number` from a
`UserUpdateDTO` that has no such field. The second conjunct shows the other
divergence of the field block: a supplied field equal to the current stored
value is still recorded in `updated_fields`. -/
theorem c3_update_user_raises_attribute_error :
    (UpdateUserUseCase_execute db1 1
        { first_name := some ("X".toList), last_name := none, email := none } 0 =
      Except.error (Raised.py (PyErr.attributeError
        ("UserUpdateDTO object has no attribute phone_number".toList)))) ∧
    ((_to_domain rec1 0).map (fun u =>
        (applyUserUpdate { u with first_name := some ("X".toList) }
          { first_name := some ("X".toList), last_name := none, email := none }).2) =
      Except.ok [("first_name".toList)]) := by
  exact ⟨rfl, rfl⟩

/-- Claim C8: `DjangoUserRepository.save`, applied to the entity loaded by
`get_by_id` for `rec1` with only `first_name` modified, replaces the stored
usable credential with the unusable one: `_to_domain` leaves the entity
`password` at its `None` default and `save` unconditionally calls
`set_password` with it. -/
theorem c8_save_wipes_stored_credential :
    (((_to_domain rec1 0).bind (fun u =>
        save db1 { u with first_name := some ("X".toList) } 0)).map
      (fun p => p.1.map DjangoUserRec.credential) =
      Except.ok [Credential.unusable]) ∧
    rec1.credential = Credential.usable ("alicepw".toList) := by
  exact ⟨rfl, rfl⟩

/-- Value-object construction on a matching username. -/
theorem mkUsername_ok {s : PyStr} (h : usernameMatch s = true) :
    mkUsername s = Except.ok ⟨s⟩ := by
  simp [mkUsername, usernameMatch_ne_empty h, h]

/-- Value-object construction on a matching email. -/
theorem mkEmail_ok {s : PyStr} (h : emailMatch s = true) :
    mkEmail s = Except.ok ⟨stripStr (lowerStr s)⟩ := by
  simp [mkEmail, emailMatch_ne_empty h, h]

/-- Evaluation of `validate_user_creation` on a valid, available username and a valid but
taken email raises the email "already taken" violation. -/
theorem validate_email_taken {db : Storage} {username email : PyStr} {now : Nat}
    {r : DjangoUserRec}
    (hu : usernameMatch username = true)
    (hfreeU : db.find? (fun r2 => r2.username == username) = none)
    (he : emailMatch email = true)
    (htaken : db.find? (fun r2 => r2.email == lowerStr email) = some r)
    (hwr : wfRec r = true) :
    validate_user_creation db username email now =
      Except.error (Raised.domain ⟨emailTakenMsg email, []⟩) := by
  have h1 : is_username_unique db username none now = Except.ok true := by
    simp [is_username_unique, get_by_username, hfreeU, Except.map]
  have h2 : is_email_unique db email none now = Except.ok false := by
    simp [is_email_unique, get_by_email, htaken, _to_domain_wf r now hwr, Except.map, truthyId]
  unfold validate_user_creation
  rw [mkUsername_ok hu, mkEmail_ok he, h1, h2]
  rfl

/-- Evaluation of `validate_user_creation` on a valid but taken username raises the
username "already taken" violation. -/
theorem validate_username_taken {db : Storage} {username email : PyStr} {now : Nat}
    {r : DjangoUserRec}
    (hu : usernameMatch username = true)
    (htaken : db.find? (fun r2 => r2.username == username) = some r)
    (hwr : wfRec r = true)
    (he : emailMatch email = true) :
    validate_user_creation db username email now =
      Except.error (Raised.domain ⟨usernameTakenMsg username, []⟩) := by
  have h1 : is_username_unique db username none now = Except.ok false := by
    simp [is_username_unique, get_by_username, htaken, _to_domain_wf r now hwr, Except.map, truthyId]
  unfold validate_user_creation
  rw [mkUsername_ok hu, mkEmail_ok he, h1]
  rfl

/-- A stored user whose email reads `username@a.bc`, as left by a first
successful create call (emails are stored lower-cased). -/
def rec2 : DjangoUserRec :=
  { uid := 1
    username := ("alice".toList)
    email := ("username@a.bc".toList)
    first_name := []
    last_name := []
    is_active := true
    is_staff := false
    is_admin := false
    is_superuser := false
    credential := Credential.usable ("pw".toList) }

/-- Storage holding only `rec2`. -/
def db2 : Storage := [rec2]

/-- Second create call: fresh valid username, same email written with a
capital letter, so its text contains the substring `Username`. -/
def dto2 : UserCreateDTO :=
  { username := ("bob".toList)
    email := ("Username@a.bc".toList)
    password := ("s3cretpass".toList)
    first_name := none
    last_name := none }

/-- Claim C2, counterexample: a second create call whose duplicate email text
contains the substring `Username` is tagged `username`, not `email` as the
claim states, although the username is valid and available and the email is
valid and registered case-insensitively. -/
theorem c2_counterexample :
    emailMatch ("Username@a.bc".toList) = true ∧
    usernameMatch ("bob".toList) = true ∧
    db2.find? (fun r => r.username == ("bob".toList)) = none ∧
    CreateUserUseCase_execute db2 dto2 0 =
      Except.error (Raised.app (AppError.conflictError
        (emailTakenMsg ("Username@a.bc".toList))
        [(("field".toList), ("username".toList))])) := by
  exact ⟨by decide, by decide, rfl, rfl⟩

/-- When validation raises a violation whose message contains the text
`already taken`, the create use case translates it to a conflict error whose
field tag is computed from the message by `conflictTagOf`. -/
theorem createUser_on_conflict {db : Storage} {user_data : UserCreateDTO} {now : Nat}
    {msg : PyStr} {details : StrDict}
    (hv : validate_user_creation db user_data.username user_data.email now =
      Except.error (Raised.domain ⟨msg, details⟩))
    (hat : hasSub ("already taken".toList) msg = true) :
    CreateUserUseCase_execute db user_data now =
      Except.error (Raised.app (AppError.conflictError msg
        [(("field".toList), conflictTagOf msg)])) := by
  unfold CreateUserUseCase_execute
  rw [hv]
  simp only [hat, eq_self_iff_true, if_true, conflictTagOf]

/-- Claim C2, amended: the conflict tag is derived from the message text by
substring matching, so a duplicate valid email is tagged `email` only when
the generated message does not contain `Username`; an email whose text
contains `Username` is tagged `username`. A duplicate valid username is
always tagged `username`. -/
theorem c2_conflict_tagging_amended (db : Storage) (user_data : UserCreateDTO) (now : Nat) :
    (∀ r : DjangoUserRec,
      usernameMatch user_data.username = true →
      db.find? (fun r2 => r2.username == user_data.username) = none →
      emailMatch user_data.email = true →
      db.find? (fun r2 => r2.email == lowerStr user_data.email) = some r →
      wfRec r = true →
      (CreateUserUseCase_execute db user_data now =
        Except.error (Raised.app (AppError.conflictError (emailTakenMsg user_data.email)
          [(("field".toList), conflictTagOf (emailTakenMsg user_data.email))]))) ∧
      (hasSub ("Username".toList) user_data.email = true →
        conflictTagOf (emailTakenMsg user_data.email) = ("username".toList))) ∧
    (∀ r : DjangoUserRec,
      usernameMatch user_data.username = true →
      db.find? (fun r2 => r2.username == user_data.username) = some r →
      wfRec r = true →
      emailMatch user_data.email = true →
      CreateUserUseCase_execute db user_data now =
        Except.error (Raised.app (AppError.conflictError (usernameTakenMsg user_data.username)
          [(("field".toList), ("username".toList))]))) := by
  constructor
  · intro r hu hfree he htaken hwr
    have hv : validate_user_creation db user_data.username user_data.email now =
        Except.error (Raised.domain ⟨emailTakenMsg user_data.email, []⟩) :=
      validate_email_taken hu hfree he htaken hwr
    have hat : hasSub ("already taken".toList) (emailTakenMsg user_data.email) = true :=
      hasSub_append_left (("Email '".toList) ++ user_data.email) (by decide)
    refine ⟨createUser_on_conflict hv hat, ?_⟩
    intro hin
    have h2 : hasSub ("Username".toList) (emailTakenMsg user_data.email) = true :=
      hasSub_append_right ("' is already taken".toList)
        (hasSub_append_left ("Email '".toList) hin)
    unfold conflictTagOf
    rw [if_pos h2]
  · intro r hu htaken hwr he
    have hv : validate_user_creation db user_data.username user_data.email now =
        Except.error (Raised.domain ⟨usernameTakenMsg user_data.username, []⟩) :=
      validate_username_taken hu htaken hwr he
    have hat : hasSub ("already taken".toList) (usernameTakenMsg user_data.username) = true :=
      hasSub_append_left (("Username '".toList) ++ user_data.username) (by decide)
    have hun : hasSub ("Username".toList) (usernameTakenMsg user_data.username) = true := by
      apply hasSub_of_startsWith
      have h0 : startsWithL ("Username".toList) ("Username '".toList) = true := by decide
      have h1 := startsWithL_append user_data.username h0
      exact startsWithL_append ("' is already taken".toList) h1
    have htag : conflictTagOf (usernameTakenMsg user_data.username) = ("username".toList) := by
      unfold conflictTagOf
      rw [if_pos hun]
    exact (createUser_on_conflict hv hat).trans (by rw [htag])

/-- A stored user for the witness scenarios of the amended tagging claim. -/
def rec2w : DjangoUserRec :=
  { uid := 1
    username := ("alice".toList)
    email := ("bob@x.co".toList)
    first_name := []
    last_name := []
    is_active := true
    is_staff := false
    is_admin := false
    is_superuser := false
    credential := Credential.unusable }

/-- Storage holding only `rec2w`. -/
def db2w : Storage := [rec2w]

/-- Create call duplicating the email of `rec2w` (different case, no
`Username` substring). -/
def dto2w : UserCreateDTO :=
  { username := ("carl".toList)
    email := ("Bob@X.co".toList)
    password := ("pw123456".toList)
    first_name := none
    last_name := none }

/-- Create call duplicating the username of `rec2w`. -/
def dto2u : UserCreateDTO :=
  { username := ("alice".toList)
    email := ("new@x.co".toList)
    password := ("pw123456".toList)
    first_name := none
    last_name := none }

/-- Witness for the amended tagging claim: a duplicate email without the
`Username` substring is tagged `email`, and a duplicate username is tagged
`username`. -/
theorem c2_conflict_tagging_amended_witness :
    (CreateUserUseCase_execute db2w dto2w 0 =
      Except.error (Raised.app (AppError.conflictError (emailTakenMsg ("Bob@X.co".toList))
        [(("field".toList), ("email".toList))]))) ∧
    (CreateUserUseCase_execute db2w dto2u 0 =
      Except.error (Raised.app (AppError.conflictError (usernameTakenMsg ("alice".toList))
        [(("field".toList), ("username".toList))]))) := by
  constructor
  · exact ((c2_conflict_tagging_amended db2w dto2w 0).1 rec2w (by decide) rfl (by decide)
      rfl (by decide)).1
  · exact (c2_conflict_tagging_amended db2w dto2u 0).2 rec2w (by decide) rfl (by decide)
      (by decide)

/-- Claim C4: `publish` appends the event to the history and produces exactly
one call per subscriber of the event's concrete type, followed by exactly one
call per type-agnostic subscriber, in registration order within each group,
for every handler behavior — including behaviors in which any subset of the
handlers raises — and, being a total function, always returns normally. The
last two conjuncts are the registration-order bookkeeping of `subscribe`. -/
theorem c4_publish_invokes_all_handlers_in_order
    (b : InMemoryEventPublisher)
    (behavior : HandlerId → DomainEvent → Except PyStr Unit) (event : DomainEvent) :
    ((publish b behavior event).1._events = b._events ++ [event]) ∧
    ((publish b behavior event).2.map Prod.fst =
      b._subscribers_by_type (evTag event) ++ b._all_subscribers) ∧
    (∀ handler t t2, (subscribe b handler (some t))._subscribers_by_type t2 =
      (if t2 == t then b._subscribers_by_type t2 ++ [handler]
       else b._subscribers_by_type t2)) ∧
    (∀ handler, (subscribe b handler none)._all_subscribers =
      b._all_subscribers ++ [handler]) := by
  have hfst : ∀ s, (_notify_subscriber behavior s event).1 = s := by
    intro s
    unfold _notify_subscriber
    cases behavior s event <;> rfl
  have hmap : ∀ l : List HandlerId,
      (l.map (fun s => _notify_subscriber behavior s event)).map Prod.fst = l := by
    intro l
    rw [List.map_map]
    have : l.map (Prod.fst ∘ fun s => _notify_subscriber behavior s event) =
        l.map (fun s => s) :=
      List.map_congr_left (fun a _ => hfst a)
    rw [this, List.map_id']
  refine ⟨rfl, ?_, fun handler t t2 => rfl, fun handler => rfl⟩
  have hsnd : (publish b behavior event).2 =
      (b._subscribers_by_type (evTag event)).map (fun s => _notify_subscriber behavior s event) ++
        b._all_subscribers.map (fun s => _notify_subscriber behavior s event) := rfl
  rw [hsnd, List.map_append, hmap, hmap]

/-- Claim C5, counterexample: constructing a `User` with a malformed (though
nonempty) email succeeds — the entity validates only that the email is
nonempty, and normalizes it; the email shape check lives solely in the
`Email` value object. -/
theorem c5_counterexample :
    emailMatch ("invalid".toList) = false ∧
    exceptIsOk (mkUser ("john".toList) ("invalid".toList) none none
      true false false false none none 0 0) = true := by
  exact ⟨by decide, rfl⟩

/-- Claim C5, amended: entity construction fails for an empty or malformed
username and for an empty email, and every constructed entity has a
pattern-valid username and the normalized supplied email; but a malformed
nonempty email is accepted (the entity performs no email shape check), so
structural validity of the email is not an entity invariant. -/
theorem c5_construction_invariant_amended (username email : PyStr)
    (fn ln : Option PyStr) (ia ist iad isu : Bool) (pw : Option PyStr)
    (id : Option Nat) (ca ua : Nat) :
    ((username.isEmpty = true ∨ usernameMatch username = false ∨ email.isEmpty = true) →
      exceptIsOk (mkUser username email fn ln ia ist iad isu pw id ca ua) = false) ∧
    (∀ u, mkUser username email fn ln ia ist iad isu pw id ca ua = Except.ok u →
      usernameMatch u.username = true ∧ u.email = stripStr (lowerStr email) ∧
        email.isEmpty = false) := by
  constructor
  · intro h
    unfold mkUser
    rcases h with h | h | h
    · rw [h]
      rfl
    · rcases hU : username.isEmpty with _ | _ <;>
        rcases hE : email.isEmpty with _ | _ <;> simp [h, exceptIsOk]
    · rcases hU : username.isEmpty with _ | _ <;> simp [h, exceptIsOk]
  · intro u hu
    unfold mkUser at hu
    rcases hU : username.isEmpty with _ | _ <;> rw [hU] at hu
    · rcases hE : email.isEmpty with _ | _ <;> rw [hE] at hu
      · rcases hM : usernameMatch username with _ | _ <;> rw [hM] at hu
        · simp at hu
        · simp at hu
          subst hu
          exact ⟨hM, rfl, rfl⟩
      · simp at hu
    · simp at hu

/-- Witness for the amended construction claim: the empty username is
rejected, and a well-formed construction yields a pattern-valid username and
the normalized email. -/
theorem c5_construction_invariant_amended_witness :
    (exceptIsOk (mkUser ("".toList) ("a@b.co".toList) none none true false false false
        none none 0 0) = false) ∧
    (usernameMatch ("john".toList) = true ∧
      ("a@b.co".toList : PyStr) = stripStr (lowerStr ("A@B.CO".toList)) ∧
      ("A@B.CO".toList).isEmpty = false) := by
  constructor
  · exact (c5_construction_invariant_amended ("".toList) ("a@b.co".toList) none none
      true false false false none none 0 0).1 (Or.inl (by decide))
  · exact (c5_construction_invariant_amended ("john".toList) ("A@B.CO".toList) none none
      true false false false none none 0 0).2
      { id := none
        created_at := 0
        updated_at := 0
        username := ("john".toList)
        email := ("a@b.co".toList)
        first_name := none
        last_name := none
        is_active := true
        is_staff := false
        is_admin := false
        is_superuser := false
        password := none } rfl

/-- Claim C7: over a storage state whose rows convert cleanly,
`AuthenticateUserUseCase.execute` never raises; it returns the absent result
when the credential collaborator rejects, when no stored row matches the
verified id, or when the user is inactive; and on success it returns the user
view of the loaded domain user. -/
theorem c7_authenticate_user_total_and_negative (db : Storage)
    (authFn : PyStr → PyStr → Option Nat) (username password : PyStr) (now : Nat)
    (hwf : wfStorage db = true) :
    (exceptIsOk (AuthenticateUserUseCase_execute db authFn username password now) = true) ∧
    (authFn username password = none →
      AuthenticateUserUseCase_execute db authFn username password now = Except.ok none) ∧
    (∀ uid, authFn username password = some uid → getRec db uid = none →
      AuthenticateUserUseCase_execute db authFn username password now = Except.ok none) ∧
    (∀ uid r, authFn username password = some uid → getRec db uid = some r →
      r.is_active = false →
      AuthenticateUserUseCase_execute db authFn username password now = Except.ok none) ∧
    (∀ uid r, authFn username password = some uid → getRec db uid = some r →
      r.is_active = true →
      ∃ u, _to_domain r now = Except.ok u ∧
        AuthenticateUserUseCase_execute db authFn username password now =
          Except.ok (some
            { user := _to_dto u
              access_token := none
              refresh_token := none
              session_key := none })) := by
  have hr : ∀ uid r, getRec db uid = some r → wfRec r = true := by
    intro uid r h
    have hm : r ∈ db := List.mem_of_find?_eq_some h
    exact List.all_eq_true.mp hwf r hm
  refine ⟨?_, ?_, ?_, ?_, ?_⟩
  · rcases hA : authFn username password with _ | uid
    · simp only [AuthenticateUserUseCase_execute, hA, exceptIsOk]
    · rcases hrec : getRec db uid with _ | r
      · simp only [AuthenticateUserUseCase_execute, hA, get_by_id, hrec, exceptIsOk]
      · have hd := _to_domain_wf r now (hr uid r hrec)
        rcases hact : r.is_active with _ | _ <;>
          simp [AuthenticateUserUseCase_execute, hA, get_by_id, hrec, hd, Except.map,
            can_user_authenticate, hact, exceptIsOk]
  · intro h
    simp only [AuthenticateUserUseCase_execute, h]
  · intro uid h hrec
    simp only [AuthenticateUserUseCase_execute, h, get_by_id, hrec]
  · intro uid r h hrec hact
    have hd := _to_domain_wf r now (hr uid r hrec)
    simp only [AuthenticateUserUseCase_execute, h, get_by_id, hrec, hd, Except.map,
      can_user_authenticate, hact, Bool.not_false, if_true]
  · intro uid r h hrec hact
    have hd := _to_domain_wf r now (hr uid r hrec)
    refine ⟨_, hd, ?_⟩
    simp only [AuthenticateUserUseCase_execute, h, get_by_id, hrec, hd, Except.map,
      can_user_authenticate, hact, Bool.not_true, if_false]
    rfl

/-- An inactive stored user for the authentication witness. -/
def rec7 : DjangoUserRec :=
  { uid := 1
    username := ("bob".toList)
    email := ("b@c.co".toList)
    first_name := []
    last_name := []
    is_active := false
    is_staff := false
    is_admin := false
    is_superuser := false
    credential := Credential.unusable }

/-- Storage holding only `rec7`. -/
def db7 : Storage := [rec7]

/-- Witness: valid credentials for an inactive user yield the absent result,
not an error. -/
theorem c7_authenticate_user_witness :
    AuthenticateUserUseCase_execute db7 (fun _ _ => some 1) ("bob".toList) ("pw".toList) 0 =
      Except.ok none := by
  exact (c7_authenticate_user_total_and_negative db7 (fun _ _ => some 1)
    ("bob".toList) ("pw".toList) 0 (by decide)).2.2.2.1 1 rec7 rfl rfl rfl

/-- Claim C9, counterexample: an input that is a valid address shape after
lower-casing and trimming, but carries surrounding whitespace, is rejected by
the `Email` constructor — the shape check runs on the raw input, before the
normalization. -/
theorem c9_counterexample :
    mkEmail (" a@b.co ".toList) =
      Except.error (PyErr.valueError ("Invalid email format".toList)) ∧
    emailMatch (stripStr (lowerStr (" a@b.co ".toList))) = true := by
  exact ⟨rfl, by decide⟩

/-- Claim C9, amended: the `Email` constructor succeeds exactly on raw inputs
matching the shape (upper case allowed, surrounding whitespace not), and then
its value is the lower-cased, trimmed input; inputs failing the raw-text
match — including whitespace-padded variants of valid addresses — are
rejected. -/
theorem c9_email_construction_amended (value : PyStr) :
    (emailMatch value = true → mkEmail value = Except.ok ⟨stripStr (lowerStr value)⟩) ∧
    (emailMatch value = false → exceptIsOk (mkEmail value) = false) := by
  constructor
  · intro h
    exact mkEmail_ok h
  · intro h
    unfold mkEmail
    rcases hE : value.isEmpty with _ | _
    · rw [h]
      rfl
    · rfl

/-- Witness: an upper-case valid address is accepted and normalized; a
whitespace-padded one is rejected. -/
theorem c9_email_construction_amended_witness :
    (mkEmail ("A@B.CO".toList) = Except.ok ⟨stripStr (lowerStr ("A@B.CO".toList))⟩) ∧
    exceptIsOk (mkEmail (" x@y.zz ".toList)) = false := by
  exact ⟨(c9_email_construction_amended ("A@B.CO".toList)).1 (by decide),
    (c9_email_construction_amended (" x@y.zz ".toList)).2 (by decide)⟩

/-- A persisted user instance for the equality counterexample. -/
def u10a : User :=
  { id := some 1
    created_at := 0
    updated_at := 0
    username := ("alice".toList)
    email := ("a@b.co".toList)
    first_name := none
    last_name := none
    is_active := true
    is_staff := false
    is_admin := false
    is_superuser := false
    password := none }

/-- The same id with a different username. -/
def u10b : User := { u10a with username := ("bob".toList) }

/-- Claim C10, counterexample: two `User` instances with equal ids but a
different username are not equal under the equality `User` instances actually
carry, and `User` has no hash (its `__hash__` attribute is `None`). -/
theorem c10_counterexample :
    u10a.id = u10b.id ∧ User_dataclass_eq u10a u10b = false ∧ User_hash_attr = none := by
  exact ⟨rfl, by decide, rfl⟩

/-- Claim C10, amended: the id-only equality is the one written in the body
of `DomainEntity.__eq__`, but the dataclass decorator on the concrete `User`
class replaces it with full-field-tuple equality — so two `User` instances
are equal exactly when every field (id, timestamps, names, flags, password)
agrees — and sets the hash attribute to `None` (instances unhashable). -/
theorem c10_entity_equality_amended (a b : User) :
    (User_dataclass_eq a b = true ↔ a = b) ∧
    (DomainEntity_eq_body a b = (a.id == b.id)) ∧
    User_hash_attr = none := by
  refine ⟨?_, rfl, rfl⟩
  cases a with
  | mk aid aca aua aun aem afn aln aac ast aad asu apw =>
    cases b with
    | mk bid bca bua bun bem bfn bln bac bst bad bsu bpw =>
      simp [User_dataclass_eq, and_assoc]
